import Mathlib

/-!
Shallow embedding of the ocean-evolution genetic-algorithm core
(`creature.py`, `environment.py`, `simulation.py`, driver `main.py`).

Depths, fitness values and continuous traits are modelled as rationals
(the source uses Python floats but every constant in the scoring tables
is an exact decimal, so `ℚ` is faithful at every input the claims use).
Categorical traits are modelled as inductive enumerations: the program
only ever stores values drawn from the fixed `possible_*` lists in
`creature.py` (by `random.choice` at construction or mutation).
Randomness is modelled by explicit oracles supplying each draw.
-/

set_option autoImplicit false

namespace Ocean

/-- `possible_vision` in `creature.py`. -/
inductive Vision where
  | eyes | no_eyes | bioluminescence | echolocation | lateral_line | compound_eyes
  deriving DecidableEq, Repr

/-- `possible_food_strategy` in `creature.py`. -/
inductive FoodStrategy where
  | photosynthesis | filter | predator | scavenger | parasite
  | chemosynthesis | detritivore | carnivore | herbivore | omnivore
  deriving DecidableEq, Repr

/-- `possible_body_type` in `creature.py`. -/
inductive BodyType where
  | streamlined | flat | spherical | elongated | gelatinous | armored
  deriving DecidableEq, Repr

/-- `possible_locomotion` in `creature.py`. -/
inductive Locomotion where
  | swimming | crawling | floating | jet_propulsion | undulating | sessile
  deriving DecidableEq, Repr

/-- `possible_size` in `creature.py`. -/
inductive BodySize where
  | microscopic | small | medium | large | giant
  deriving DecidableEq, Repr

/-- `possible_pressure_adaptation` in `creature.py`. -/
inductive PressureAdaptation where
  | low | medium | high | extreme
  deriving DecidableEq, Repr

/-- `possible_temperature_tolerance` in `creature.py`. -/
inductive TemperatureTolerance where
  | cold | moderate | warm | extremophile
  deriving DecidableEq, Repr

/-- `possible_defense` in `creature.py`. -/
inductive DefenseMechanism where
  | camouflage | spines | toxins | speed | armor | mimicry | none
  deriving DecidableEq, Repr

/-- `possible_social_behavior` in `creature.py`. -/
inductive SocialBehavior where
  | solitary | small_groups | schooling | colonial | symbiotic
  deriving DecidableEq, Repr

/-- The trait mapping built in `Creature.__init__` (`creature.py` lines 31-64):
a fixed schema of nine categorical traits and ten continuous traits. -/
structure Traits where
  vision : Vision
  food_strategy : FoodStrategy
  move_eff : ℚ
  repro_rate : ℚ
  body_type : BodyType
  locomotion : Locomotion
  size : BodySize
  pressure_adaptation : PressureAdaptation
  temperature_tolerance : TemperatureTolerance
  defense_mechanism : DefenseMechanism
  social_behavior : SocialBehavior
  metabolic_rate : ℚ
  oxygen_efficiency : ℚ
  light_production : ℚ
  pressure_tolerance : ℚ
  salinity_tolerance : ℚ
  aggression : ℚ
  camouflage_ability : ℚ
  migration_tendency : ℚ
  deriving DecidableEq, Repr

/-- Depth band part of `Creature.generate_species_name` (`creature.py` lines
75-96): the first matching band of the insertion-ordered `depth_prefixes`
dict, with the for-else fallback "Abysso". -/
def depthPart (depth : ℚ) : String :=
  if 0 ≤ depth ∧ depth < 200 then "Superficie"
  else if 200 ≤ depth ∧ depth < 1000 then "Meso"
  else if 1000 ≤ depth ∧ depth < 4000 then "Bathy"
  else if 4000 ≤ depth ∧ depth < 6000 then "Abysso"
  else "Abysso"

/-- Vision part of `Creature.generate_species_name` (`creature.py` lines
82-89, 98). The "mysticus" fallback of `.get` is unreachable because every
stored vision value is one of the six enumerated ones. -/
def visionPart (vision : Vision) : String :=
  match vision with
  | .eyes => "opticus"
  | .no_eyes => "caecus"
  | .bioluminescence => "lucidus"
  | .echolocation => "sonarus"
  | .lateral_line => "lateralis"
  | .compound_eyes => "multiopus"

/-- `Creature.generate_species_name` (`creature.py` lines 73-99):
reads only the depth and the vision trait. -/
def generate_species_name (depth : ℚ) (traits : Traits) : String :=
  depthPart depth ++ " " ++ visionPart traits.vision

/-- A `Creature` object: trait mapping plus the bookkeeping attributes set
in `Creature.__init__` (`creature.py` lines 66-71). -/
structure Creature where
  traits : Traits
  depth : ℚ
  alive : Bool
  fitness : ℚ
  age : ℕ
  energy : ℚ
  species_name : String
  deriving DecidableEq, Repr

/-- `Creature.__init__(depth, traits)` with traits supplied (`creature.py`
lines 27-29, 66-71): traits are copied, `alive = True`, `fitness = 0`,
`age = 0`, `energy = 100.0`, and the species name is derived immediately. -/
def Creature.init (depth : ℚ) (traits : Traits) : Creature :=
  { traits := traits
    depth := depth
    alive := true
    fitness := 0
    age := 0
    energy := 100
    species_name := generate_species_name depth traits }

/-- `OceanLayer` in `environment.py`. -/
structure OceanLayer where
  name : String
  depth_min : ℚ
  depth_max : ℚ
  light_intensity : ℚ
  food_type : String
  deriving DecidableEq, Repr

/-- The last layer of `Environment.__init__` (`environment.py` line 14),
also the fallback of `get_layer`. -/
def abyssLayer : OceanLayer :=
  ⟨"Abyss", 4000, 6000, 1/100, "chemosynthesis"⟩

/-- `Environment.__init__` (`environment.py` lines 10-15). -/
def env_layers : List OceanLayer :=
  [ ⟨"Surface", 0, 100, 1, "photosynthesis"⟩
  , ⟨"Mid-depth", 100, 1000, 3/10, "organics"⟩
  , ⟨"Deep Sea", 1000, 4000, 1/20, "marine snow"⟩
  , abyssLayer ]

/-- `Environment.get_layer` (`environment.py` lines 17-22): first layer whose
half-open range contains the depth, else the last layer. -/
def get_layer (depth : ℚ) : OceanLayer :=
  (env_layers.find? fun l => decide (l.depth_min ≤ depth ∧ depth < l.depth_max)).getD abyssLayer

/-- Python `max(a, b)` on numbers: keeps the first argument, replacing it
only when the second is strictly greater (equal to `max` on `ℚ`, spelled
out so the kernel can evaluate it). -/
def pymax (a b : ℚ) : ℚ := if b > a then b else a

/-- Python `min(a, b)` on numbers, same evaluation-friendly spelling. -/
def pymin (a b : ℚ) : ℚ := if b < a then b else a

/-- Python `abs(x)`. -/
def pyabs (q : ℚ) : ℚ := if q < 0 then -q else q

/-- Position of a pressure-adaptation value in
`list(pressure_zones.values()) = ["low", "medium", "high", "extreme"]`
(`creature.py` lines 181-182). -/
def pressureIdx (p : PressureAdaptation) : ℤ :=
  match p with
  | .low => 0
  | .medium => 1
  | .high => 2
  | .extreme => 3

/-- `Creature.calculate_trait_compatibility` (`creature.py` lines 146-209). -/
def Creature.calculate_trait_compatibility (c : Creature) (layer : OceanLayer) : ℚ :=
  let v := c.traits.vision
  let s : ℚ := 0
  let s :=
    if c.depth < 200 then
      (if v = .eyes ∨ v = .compound_eyes then s + 2
       else if v = .bioluminescence then s - 1/2 else s)
    else if c.depth < 1000 then
      (if v = .eyes ∨ v = .bioluminescence then s + 3/2 else s)
    else
      (if v = .bioluminescence ∨ v = .echolocation ∨ v = .lateral_line ∨ v = .no_eyes
       then s + 2
       else if v = .eyes then s - 1 else s)
  let required : PressureAdaptation :=
    if 0 ≤ c.depth ∧ c.depth < 200 then .low
    else if 200 ≤ c.depth ∧ c.depth < 1000 then .medium
    else if 1000 ≤ c.depth ∧ c.depth < 4000 then .high
    else if 4000 ≤ c.depth ∧ c.depth < 6000 then .extreme
    else .low
  let s :=
    if c.traits.pressure_adaptation = required then s + 3/2
    else if (pressureIdx c.traits.pressure_adaptation - pressureIdx required).natAbs = 1
    then s + 1/2
    else s - 1
  let fs := c.traits.food_strategy
  let s :=
    if layer.food_type = "photosynthesis" then
      (if fs = .photosynthesis ∨ fs = .herbivore then s + 2 else s)
    else if layer.food_type = "chemosynthesis" then
      (if fs = .chemosynthesis ∨ fs = .scavenger ∨ fs = .detritivore then s + 9/5 else s)
    else if layer.food_type = "marine snow" then
      (if fs = .filter ∨ fs = .detritivore ∨ fs = .scavenger then s + 3/2 else s)
    else s
  let efficient : List BodyType :=
    match c.traits.locomotion with
    | .swimming => [.streamlined, .elongated]
    | .floating => [.gelatinous, .spherical]
    | .crawling => [.flat, .armored]
    | .jet_propulsion => [.spherical, .streamlined]
    | _ => []
  if c.traits.body_type ∈ efficient then s + 1/2 else s

/-- The `food_bonuses` dict of `Simulation.evaluate_fitness`
(`simulation.py` lines 23-36); `Option.none` models a key miss. -/
def food_bonuses (food_type : String) (fs : FoodStrategy) : Option ℚ :=
  if food_type = "photosynthesis" ∧ fs = .photosynthesis then some (5/2)
  else if food_type = "photosynthesis" ∧ fs = .herbivore then some 2
  else if food_type = "chemosynthesis" ∧ fs = .chemosynthesis then some (11/5)
  else if food_type = "chemosynthesis" ∧ fs = .scavenger then some (9/5)
  else if food_type = "chemosynthesis" ∧ fs = .detritivore then some (8/5)
  else if food_type = "marine snow" ∧ fs = .filter then some (9/5)
  else if food_type = "marine snow" ∧ fs = .detritivore then some (8/5)
  else if food_type = "marine snow" ∧ fs = .scavenger then some (7/5)
  else if food_type = "organics" ∧ fs = .filter then some (3/2)
  else if food_type = "organics" ∧ fs = .predator then some (13/10)
  else if food_type = "organics" ∧ fs = .carnivore then some (7/5)
  else if food_type = "organics" ∧ fs = .omnivore then some (6/5)
  else Option.none

/-- `Simulation._evaluate_vision_fitness` (`simulation.py` lines 68-89):
the body rebinds its local parameter `fit` and returns it implicitly here;
the Python method returns `None`, so the caller never sees this value. -/
def evaluate_vision_fitness (c : Creature) (fit : ℚ) : ℚ :=
  let score : ℚ :=
    if c.depth < 200 then
      match c.traits.vision with
      | .eyes => 2 | .compound_eyes => 9/5 | .lateral_line => 1/2
      | .bioluminescence => -4/5 | .echolocation => 1/5 | .no_eyes => -1
    else if c.depth < 1000 then
      match c.traits.vision with
      | .eyes => 6/5 | .bioluminescence => 3/2 | .lateral_line => 1
      | .compound_eyes => 4/5 | .echolocation => 6/5 | .no_eyes => 1/2
    else
      match c.traits.vision with
      | .bioluminescence => 11/5 | .echolocation => 2 | .lateral_line => 9/5
      | .no_eyes => 3/2 | .eyes => -3/2 | .compound_eyes => -6/5
  fit + score

/-- `Simulation._evaluate_pressure_fitness` (`simulation.py` lines 91-105). -/
def evaluate_pressure_fitness (c : Creature) (fit : ℚ) : ℚ :=
  let p := c.traits.pressure_adaptation
  if c.depth < 200 ∧ p = .low then fit + 3/2
  else if c.depth < 1000 ∧ p = .medium then fit + 3/2
  else if c.depth < 4000 ∧ p = .high then fit + 3/2
  else if 4000 ≤ c.depth ∧ p = .extreme then fit + 2
  else fit - 1

/-- `Simulation._evaluate_locomotion_fitness` (`simulation.py` lines 107-129). -/
def evaluate_locomotion_fitness (c : Creature) (fit : ℚ) : ℚ :=
  let synergy : ℚ :=
    match c.traits.body_type, c.traits.locomotion with
    | .streamlined, .swimming => 3/2
    | .elongated, .undulating => 13/10
    | .gelatinous, .floating => 6/5
    | .spherical, .jet_propulsion => 7/5
    | .flat, .crawling => 11/10
    | .armored, .crawling => 4/5
    | _, _ => 0
  let fit := fit + synergy
  if c.traits.locomotion = .sessile then
    (if c.depth > 2000 then fit + 1 else fit + 1/2)
  else fit

/-- `Simulation._evaluate_size_fitness` (`simulation.py` lines 131-146). -/
def evaluate_size_fitness (c : Creature) (fit : ℚ) : ℚ :=
  let score : ℚ :=
    if c.depth < 200 then
      match c.traits.size with
      | .microscopic => 4/5 | .small => 1 | .medium => 6/5 | .large => 1 | .giant => 3/5
    else if c.depth < 1000 then
      match c.traits.size with
      | .microscopic => 3/5 | .small => 6/5 | .medium => 3/2 | .large => 1 | .giant => 2/5
    else
      match c.traits.size with
      | .microscopic => 1 | .small => 13/10 | .medium => 1 | .large => 7/10 | .giant => 3/10
  fit + score

/-- `Simulation._evaluate_defense_fitness` (`simulation.py` lines 148-160):
in the deep table the dict has a "bioluminescence" key no creature can carry
and no "mimicry" key, so mimicry falls back to the `.get` default 0. -/
def evaluate_defense_fitness (c : Creature) (fit : ℚ) : ℚ :=
  let score : ℚ :=
    if c.depth < 1000 then
      match c.traits.defense_mechanism with
      | .speed => 6/5 | .camouflage => 1 | .toxins => 11/10
      | .spines => 4/5 | .armor => 3/5 | .mimicry => 1 | .none => -1/2
    else
      match c.traits.defense_mechanism with
      | .camouflage => 4/5 | .toxins => 1 | .armor => 1
      | .spines => 7/10 | .speed => 3/5 | .none => 0 | .mimicry => 0
  fit + score

/-- `Simulation._evaluate_social_fitness` (`simulation.py` lines 162-174). -/
def evaluate_social_fitness (c : Creature) (fit : ℚ) : ℚ :=
  let score : ℚ :=
    if c.depth < 1000 then
      match c.traits.social_behavior with
      | .schooling => 1 | .small_groups => 4/5 | .colonial => 3/5
      | .symbiotic => 7/10 | .solitary => 3/10
    else
      match c.traits.social_behavior with
      | .solitary => 1 | .symbiotic => 6/5 | .small_groups => 2/5
      | .schooling => 1/5 | .colonial => 4/5
  fit + score

/-- `Simulation._evaluate_metabolic_fitness` (`simulation.py` lines 176-191). -/
def evaluate_metabolic_fitness (c : Creature) (fit : ℚ) : ℚ :=
  if c.depth > 2000 then
    let fit := if c.traits.metabolic_rate < 1 then fit + 1 else fit
    if c.traits.oxygen_efficiency > 6/5 then fit + 4/5 else fit
  else
    if 4/5 ≤ c.traits.metabolic_rate ∧ c.traits.metabolic_rate ≤ 3/2 then fit + 1/2 else fit

/-- `Simulation._evaluate_tolerance_fitness` (`simulation.py` lines 193-210). -/
def evaluate_tolerance_fitness (c : Creature) (fit : ℚ) : ℚ :=
  let t := c.traits.temperature_tolerance
  let fit :=
    if c.depth > 3000 then
      (if t = .cold ∨ t = .extremophile then fit + 4/5 else fit)
    else if c.depth < 500 then
      (if t = .moderate ∨ t = .warm then fit + 3/5 else fit)
    else fit
  let expected_pressure := pymin 2 (c.depth / 3000)
  fit - pyabs (c.traits.pressure_tolerance - expected_pressure) * (1/2)

/-- `Simulation.evaluate_fitness` (`simulation.py` lines 14-66). The eight
`_evaluate_*_fitness` helper calls pass the local float `fit` by value and
return `None`, so the values they compute are discarded, exactly as the
unused `let` bindings discard them here; only the trait-compatibility score
and the food bonus reach the stored fitness, which is clamped by `max(0, fit)`. -/
def evaluate_fitness (c : Creature) : Creature :=
  let layer := get_layer c.depth
  let fit : ℚ := 0
  let fit := fit + c.calculate_trait_compatibility layer
  let fit :=
    match food_bonuses layer.food_type c.traits.food_strategy with
    | some b => fit + b
    | Option.none => fit
  let _ := evaluate_vision_fitness c fit
  let _ := evaluate_pressure_fitness c fit
  let _ := evaluate_locomotion_fitness c fit
  let _ := evaluate_size_fitness c fit
  let _ := evaluate_defense_fitness c fit
  let _ := evaluate_social_fitness c fit
  let _ := evaluate_metabolic_fitness c fit
  let _ := evaluate_tolerance_fitness c fit
  { c with fitness := pymax 0 fit }

/-- The two-term sum that actually reaches `creature.fitness`:
trait compatibility plus the food-strategy bonus for the layer. -/
def fitness_base (c : Creature) : ℚ :=
  c.calculate_trait_compatibility (get_layer c.depth) +
    match food_bonuses (get_layer c.depth).food_type c.traits.food_strategy with
    | some b => b
    | Option.none => 0

/-- The sum of the eight adjustment terms the helper methods compute
(each helper applied to a zero accumulator gives its would-be delta). -/
def fitness_adjustments (c : Creature) : ℚ :=
  evaluate_vision_fitness c 0 + evaluate_pressure_fitness c 0 +
    evaluate_locomotion_fitness c 0 + evaluate_size_fitness c 0 +
    evaluate_defense_fitness c 0 + evaluate_social_fitness c 0 +
    evaluate_metabolic_fitness c 0 + evaluate_tolerance_fitness c 0

/-- Fitness evaluation followed by survival marking as performed on each
creature in `Simulation.run_generation` (`simulation.py` lines 215-217):
the alive flag is `fitness > 1.0`, a strict comparison. -/
def mark_alive (c : Creature) : Creature :=
  let c := evaluate_fitness c
  { c with alive := decide (c.fitness > 1) }

/-- Python `int()` applied to a rational: truncation toward zero. -/
def pyInt (q : ℚ) : ℤ :=
  if q < 0 then -⌊-q⌋ else ⌊q⌋

/-- `max(min_val, min(max_val, v))` clamping used by `Creature.mutate`
(`creature.py` line 139). -/
def clamp (lo hi v : ℚ) : ℚ := pymax lo (pymin hi v)

/-- One complete set of random draws consumed by a single `Creature.mutate`
call: for each categorical trait the `random.random()` guard draw and the
`random.choice` replacement it would use, and for each continuous trait the
guard draw and the `random.uniform(-strength, strength)` delta. -/
structure MutOracle where
  gVision : ℚ
  cVision : Vision
  gFood : ℚ
  cFood : FoodStrategy
  gBody : ℚ
  cBody : BodyType
  gLoco : ℚ
  cLoco : Locomotion
  gSize : ℚ
  cSize : BodySize
  gPress : ℚ
  cPress : PressureAdaptation
  gTemp : ℚ
  cTemp : TemperatureTolerance
  gDef : ℚ
  cDef : DefenseMechanism
  gSoc : ℚ
  cSoc : SocialBehavior
  gMove : ℚ
  dMove : ℚ
  gRepro : ℚ
  dRepro : ℚ
  gMetab : ℚ
  dMetab : ℚ
  gOxy : ℚ
  dOxy : ℚ
  gLight : ℚ
  dLight : ℚ
  gPressT : ℚ
  dPressT : ℚ
  gSalin : ℚ
  dSalin : ℚ
  gAggr : ℚ
  dAggr : ℚ
  gCamo : ℚ
  dCamo : ℚ
  gMigr : ℚ
  dMigr : ℚ

/-- Every guard draw of the oracle lies in `[0, 1)`, as `random.random()`
guarantees. -/
def MutOracle.valid (o : MutOracle) : Prop :=
  (0 ≤ o.gVision ∧ o.gVision < 1) ∧ (0 ≤ o.gFood ∧ o.gFood < 1) ∧
  (0 ≤ o.gBody ∧ o.gBody < 1) ∧ (0 ≤ o.gLoco ∧ o.gLoco < 1) ∧
  (0 ≤ o.gSize ∧ o.gSize < 1) ∧ (0 ≤ o.gPress ∧ o.gPress < 1) ∧
  (0 ≤ o.gTemp ∧ o.gTemp < 1) ∧ (0 ≤ o.gDef ∧ o.gDef < 1) ∧
  (0 ≤ o.gSoc ∧ o.gSoc < 1) ∧ (0 ≤ o.gMove ∧ o.gMove < 1) ∧
  (0 ≤ o.gRepro ∧ o.gRepro < 1) ∧ (0 ≤ o.gMetab ∧ o.gMetab < 1) ∧
  (0 ≤ o.gOxy ∧ o.gOxy < 1) ∧ (0 ≤ o.gLight ∧ o.gLight < 1) ∧
  (0 ≤ o.gPressT ∧ o.gPressT < 1) ∧ (0 ≤ o.gSalin ∧ o.gSalin < 1) ∧
  (0 ≤ o.gAggr ∧ o.gAggr < 1) ∧ (0 ≤ o.gCamo ∧ o.gCamo < 1) ∧
  (0 ≤ o.gMigr ∧ o.gMigr < 1)

instance (o : MutOracle) : Decidable o.valid := by
  unfold MutOracle.valid; infer_instance

/-- `Creature.mutate` (`creature.py` lines 101-144): copy the trait mapping,
replace each categorical trait when its guard draw is below the rate,
perturb-and-clamp each continuous trait when its guard draw is below the
rate (bounds and strengths from the `numerical_traits` table), then build a
fresh `Creature` at the parent's depth.  Line 143 re-derives the species
name the constructor already derived, a no-op. -/
def Creature.mutate (c : Creature) (mutation_rate : ℚ) (o : MutOracle) : Creature :=
  let t := c.traits
  let t :=
    { t with
      vision := if o.gVision < mutation_rate then o.cVision else t.vision
      food_strategy := if o.gFood < mutation_rate then o.cFood else t.food_strategy
      body_type := if o.gBody < mutation_rate then o.cBody else t.body_type
      locomotion := if o.gLoco < mutation_rate then o.cLoco else t.locomotion
      size := if o.gSize < mutation_rate then o.cSize else t.size
      pressure_adaptation := if o.gPress < mutation_rate then o.cPress else t.pressure_adaptation
      temperature_tolerance := if o.gTemp < mutation_rate then o.cTemp else t.temperature_tolerance
      defense_mechanism := if o.gDef < mutation_rate then o.cDef else t.defense_mechanism
      social_behavior := if o.gSoc < mutation_rate then o.cSoc else t.social_behavior }
  let t :=
    { t with
      move_eff := if o.gMove < mutation_rate
        then clamp (3/10) 2 (t.move_eff + o.dMove) else t.move_eff
      repro_rate := if o.gRepro < mutation_rate
        then clamp (1/5) (5/2) (t.repro_rate + o.dRepro) else t.repro_rate
      metabolic_rate := if o.gMetab < mutation_rate
        then clamp (1/5) 2 (t.metabolic_rate + o.dMetab) else t.metabolic_rate
      oxygen_efficiency := if o.gOxy < mutation_rate
        then clamp (3/10) (9/5) (t.oxygen_efficiency + o.dOxy) else t.oxygen_efficiency
      light_production := if o.gLight < mutation_rate
        then clamp 0 1 (t.light_production + o.dLight) else t.light_production
      pressure_tolerance := if o.gPressT < mutation_rate
        then clamp (1/10) 2 (t.pressure_tolerance + o.dPressT) else t.pressure_tolerance
      salinity_tolerance := if o.gSalin < mutation_rate
        then clamp (3/10) (3/2) (t.salinity_tolerance + o.dSalin) else t.salinity_tolerance
      aggression := if o.gAggr < mutation_rate
        then clamp 0 1 (t.aggression + o.dAggr) else t.aggression
      camouflage_ability := if o.gCamo < mutation_rate
        then clamp 0 1 (t.camouflage_ability + o.dCamo) else t.camouflage_ability
      migration_tendency := if o.gMigr < mutation_rate
        then clamp 0 1 (t.migration_tendency + o.dMigr) else t.migration_tendency }
  Creature.init c.depth t

/-- Per-species accumulator of `Simulation._log_species_diversity`
(`simulation.py` lines 265-273): running count, running fitness sum
(the code accumulates into the `avg_fitness` slot), and the list of
depths appended to `depth_range`. -/
structure SpeciesAcc where
  name : String
  count : ℕ
  fitness_sum : ℚ
  depths : List ℚ
  deriving DecidableEq, Repr

/-- Finalised per-species record of a `species_log` entry
(`simulation.py` lines 276-279): count, mean fitness, `[min, max]` depth
range. -/
structure SpeciesEntry where
  name : String
  count : ℕ
  avg_fitness : ℚ
  depth_min : ℚ
  depth_max : ℚ
  deriving DecidableEq, Repr

/-- One entry of `species_log` (`simulation.py` lines 281-285). -/
structure SpeciesLogEntry where
  generation : ℕ
  species : List SpeciesEntry
  total_species : ℕ
  deriving DecidableEq, Repr

/-- Update the insertion-ordered species dict with one alive creature
(`simulation.py` lines 269-273). -/
def addToAcc (c : Creature) : List SpeciesAcc → List SpeciesAcc
  | [] => [⟨c.species_name, 1, c.fitness, [c.depth]⟩]
  | a :: rest =>
    if a.name = c.species_name then
      ⟨a.name, a.count + 1, a.fitness_sum + c.fitness, a.depths ++ [c.depth]⟩ :: rest
    else
      a :: addToAcc c rest

/-- The accumulation loop of `_log_species_diversity`
(`simulation.py` lines 266-273): alive creatures only, in population order. -/
def accumulateSpecies : List Creature → List SpeciesAcc → List SpeciesAcc
  | [], acc => acc
  | c :: rest, acc =>
    accumulateSpecies rest (if c.alive then addToAcc c acc else acc)

/-- `min(depths)` over a nonempty list, as Python computes it. -/
def listMin (d : ℚ) (ds : List ℚ) : ℚ := ds.foldl pymin d

/-- `max(depths)` over a nonempty list, as Python computes it. -/
def listMax (d : ℚ) (ds : List ℚ) : ℚ := ds.foldl pymax d

/-- The averaging pass of `_log_species_diversity`
(`simulation.py` lines 276-279): divide the fitness sum by the count and
collapse the depth list to `[min, max]`.  The depth list is nonempty for
every accumulated species (count ≥ 1); the `[]` branch is unreachable. -/
def finalizeAcc (a : SpeciesAcc) : SpeciesEntry :=
  { name := a.name
    count := a.count
    avg_fitness := a.fitness_sum / (a.count : ℚ)
    depth_min := match a.depths with | [] => 0 | d :: ds => listMin d ds
    depth_max := match a.depths with | [] => 0 | d :: ds => listMax d ds }

/-- The per-species map a `_log_species_diversity` call derives from a
population: aggregation over alive creatures, finalised. -/
def species_snapshot (creatures : List Creature) : List SpeciesEntry :=
  (accumulateSpecies creatures []).map finalizeAcc

/-- `Simulation` state: the fields of `Simulation.__init__`
(`simulation.py` lines 7-12) that the claims concern.  The environment is
the fixed `Environment()` table embedded as `env_layers`. -/
structure SimState where
  creatures : List Creature
  generation_count : ℕ
  generations : ℕ
  species_log : List SpeciesLogEntry
  deriving DecidableEq, Repr

/-- `Simulation._log_species_diversity` (`simulation.py` lines 263-285):
appends one entry aggregating the current `self.creatures` (alive only)
under the current, not-yet-incremented `generation_count`. -/
def log_species_diversity (sim : SimState) : SimState :=
  let species := species_snapshot sim.creatures
  { sim with
    species_log := sim.species_log ++
      [⟨sim.generation_count, species, species.length⟩] }

/-- Python's `max(creatures, key=lambda c: c.fitness)` starting from a first
candidate: keeps the current maximum and replaces it only on a strictly
larger key, so the first maximal element wins. -/
def maxByFitness (c : Creature) : List Creature → Creature
  | [] => c
  | d :: ds => if d.fitness > c.fitness then maxByFitness d ds else maxByFitness c ds

/-- Stable descending insertion by fitness: the new element is placed
before the first element whose fitness it strictly exceeds, i.e. after
every element of greater-or-equal fitness already in the list. -/
def insertDesc (c : Creature) : List Creature → List Creature
  | [] => [c]
  | d :: ds => if c.fitness ≥ d.fitness then c :: d :: ds else d :: insertDesc c ds

/-- Python's stable `sorted(survivors, key=lambda x: x.fitness, reverse=True)`
(`simulation.py` line 253): descending by fitness, ties in original order.
Folding from the right with `insertDesc` places each earlier-original
element before later-original elements of equal fitness. -/
def sortDesc : List Creature → List Creature
  | [] => []
  | c :: cs => insertDesc c (sortDesc cs)

/-- Survivor selection of `run_generation` (`simulation.py` lines 222-226):
the alive creatures, or — only when that list is empty — the single first
fittest creature of the whole population, its alive flag untouched.
Python raises `ValueError` on an empty population; the claims all assume a
nonempty one, for which the `[]` branch is unreachable. -/
def select_survivors (creatures : List Creature) : List Creature :=
  let survivors := creatures.filter (·.alive)
  match survivors with
  | _ :: _ => survivors
  | [] =>
    match creatures with
    | [] => []
    | c :: cs => [maxByFitness c cs]

/-- The random draws one `run_generation` call may consume, indexed by the
length of `next_gen` at the moment of the draw: the
`random.uniform(-500, 500)` depth variation and the mutation draws for the
reproduction loop, and the `random.choice` index, `random.randint(0, 6000)`
depth and mutation draws for the padding loop. -/
structure GenOracle where
  depthVar : ℕ → ℚ
  mutAt : ℕ → MutOracle
  padChoice : ℕ → ℕ
  padDepth : ℕ → ℚ
  padMut : ℕ → MutOracle

/-- One offspring of the reproduction loop (`simulation.py` lines 242-248):
mutate the parent at the default rate 0.15, then overwrite the depth with
the clamped perturbed parent depth.  The species name is *not* re-derived
after the depth overwrite. -/
def reproOffspring (c : Creature) (o : GenOracle) (idx : ℕ) : Creature :=
  let new_depth := pymax 0 (pymin 6000 (c.depth + o.depthVar idx))
  let offspring := c.mutate (3/20) (o.mutAt idx)
  { offspring with depth := new_depth }

/-- The inner `for _ in range(offspring_num)` loop (`simulation.py` lines
238-248): append offspring until the count is exhausted or the population
target is reached. -/
def reproInner (c : Creature) (o : GenOracle) (target : ℕ) :
    ℕ → List Creature → List Creature
  | 0, acc => acc
  | n + 1, acc =>
    if target ≤ acc.length then acc
    else reproInner c o target n (acc ++ [reproOffspring c o acc.length])

/-- The outer `for c in survivors` reproduction loop (`simulation.py` lines
232-248): `base = int(max(1, repro_rate))`,
`num = int(base * min(2.0, fitness / 2.0))`. -/
def reproLoop (o : GenOracle) (target : ℕ) :
    List Creature → List Creature → List Creature
  | [], acc => acc
  | c :: rest, acc =>
    let base := pyInt (pymax 1 c.traits.repro_rate)
    let fitness_multiplier := pymin 2 (c.fitness / 2)
    let offspring_num := pyInt ((base : ℚ) * fitness_multiplier)
    reproLoop o target rest (reproInner c o target offspring_num.toNat acc)

/-- One padding offspring (`simulation.py` lines 254-258): a mutation of a
randomly chosen best survivor, at a fresh random depth.  The oracle's
choice index is reduced modulo the list length, so every choice is valid. -/
def padOffspring (best : List Creature) (o : GenOracle) (idx : ℕ) : Creature :=
  let parent := best.getD (o.padChoice idx % Nat.max 1 best.length)
    (Creature.init 0 ⟨.eyes, .photosynthesis, 1, 1, .streamlined, .swimming, .small,
      .low, .moderate, .none, .solitary, 1, 1, 0, 1, 1, 0, 0, 0⟩)
  let offspring := parent.mutate (3/20) (o.padMut idx)
  { offspring with depth := o.padDepth idx }

/-- The `while len(next_gen) < population_target` padding loop
(`simulation.py` lines 251-258), with fuel: each iteration appends exactly
one creature, so `target` units of fuel always suffice. -/
def padLoop (best : List Creature) (o : GenOracle) (target : ℕ) :
    ℕ → List Creature → List Creature
  | 0, acc => acc
  | fuel + 1, acc =>
    if acc.length < target then
      padLoop best o target fuel (acc ++ [padOffspring best o acc.length])
    else acc

/-- `Simulation.run_generation` (`simulation.py` lines 212-261): evaluate
and mark every creature, log species diversity (before any replacement),
select survivors with the single-fittest fallback, reproduce up to the
population target, pad from the five fittest survivors, then install the
first `target` next-generation creatures and increment the counter. -/
def run_generation (sim : SimState) (o : GenOracle) : SimState :=
  let evaluated := sim.creatures.map mark_alive
  let sim := { sim with creatures := evaluated }
  let sim := log_species_diversity sim
  let survivors := select_survivors sim.creatures
  let population_target := sim.creatures.length
  let next_gen := reproLoop o population_target survivors []
  let best_survivors := (sortDesc survivors).take 5
  let next_gen := padLoop best_survivors o population_target population_target next_gen
  { sim with
    creatures := next_gen.take population_target
    generation_count := sim.generation_count + 1 }

/-- The `for gen in range(self.generations)` loop of `Simulation.run`
(`simulation.py` lines 291-297), counting down the remaining generations;
the `print` calls touch no state. -/
def runLoop (o : ℕ → GenOracle) : ℕ → SimState → SimState
  | 0, sim => sim
  | n + 1, sim => runLoop o n (run_generation sim (o sim.generation_count))

/-- `Simulation.run` (`simulation.py` lines 287-299): runs exactly
`self.generations` generations.  The method takes no parameter besides
`self` — there is no generations argument and no progress callback. -/
def run (sim : SimState) (o : ℕ → GenOracle) : SimState :=
  runLoop o sim.generations sim

/-- Parameter names of `def run(self):` (`simulation.py` line 287),
excluding `self`: the method accepts no arguments. -/
def run_params : List String := []

/-- Keyword arguments of the call `sim.run(progress_callback=progress_callback)`
in `main.py` line 19. -/
def main_run_call_kwargs : List String := ["progress_callback"]

/-- Python call binding for keyword arguments against a parameter list with
no `**kwargs`: every keyword must name a declared parameter, otherwise the
call raises `TypeError: unexpected keyword argument`. -/
def accepts_kwargs (params kwargs : List String) : Bool :=
  kwargs.all fun k => params.contains k

/-- A Python runtime exception; `typeError` models `TypeError`. -/
inductive PyError where
  | typeError
  deriving DecidableEq, Repr

/-- A Python value as it occurs in the `get_species_summary` depth-range
bookkeeping: either a float or a list of floats. -/
inductive PyVal where
  | num (q : ℚ)
  | list (l : List ℚ)
  deriving DecidableEq, Repr

/-- Python `min(a, b)` on such values: comparing a list with a number raises
`TypeError` (no call site compares two lists). -/
def pyMin : PyVal → PyVal → Except PyError PyVal
  | .num a, .num b => .ok (.num (pymin a b))
  | _, _ => .error .typeError

/-- Python `max(a, b)` on such values, same comparison rules. -/
def pyMax : PyVal → PyVal → Except PyError PyVal
  | .num a, .num b => .ok (.num (pymax a b))
  | _, _ => .error .typeError

/-- Extract the numeric payload of a `PyVal` (call sites only reach this
with `num`). -/
def PyVal.toNum : PyVal → ℚ
  | .num q => q
  | .list _ => 0

/-- Per-species accumulator of `Simulation.get_species_summary`
(`simulation.py` lines 307-315): the dict holds `count`, an `example`
creature, a two-element `depth_range` list (its two slots here) and the
running fitness sum accumulated in the `avg_fitness` slot. -/
structure SummaryAcc where
  name : String
  count : ℕ
  example_creature : Creature
  range0 : ℚ
  range1 : ℚ
  fitness_sum : ℚ
  deriving DecidableEq, Repr

/-- The `if name not in species_summary` initialisation
(`simulation.py` lines 307-313): a new key is appended with count 0,
the creature as example, `depth_range = [c.depth, c.depth]` and zero
fitness. -/
def summaryInit (acc : List SummaryAcc) (c : Creature) : List SummaryAcc :=
  if acc.any (·.name = c.species_name) then acc
  else acc ++ [⟨c.species_name, 0, c, c.depth, c.depth, 0⟩]

/-- The per-creature update (`simulation.py` lines 314-317) applied to the
entry whose key matches: bump count and fitness sum, then execute
`depth_range[0] = min(species_summary[name]['depth_range'], c.depth)` —
the source passes the whole `depth_range` *list* to `min` (the `[0]`
subscript is missing on the second argument of the assignment), which
raises `TypeError`; line 317 correctly uses `depth_range[1]`. -/
def summaryUpdate (c : Creature) : List SummaryAcc → Except PyError (List SummaryAcc)
  | [] => .ok []
  | a :: rest =>
    if a.name = c.species_name then do
      let a := { a with count := a.count + 1, fitness_sum := a.fitness_sum + c.fitness }
      let m0 ← pyMin (.list [a.range0, a.range1]) (.num c.depth)
      let a := { a with range0 := m0.toNum }
      let m1 ← pyMax (.num a.range1) (.num c.depth)
      let a := { a with range1 := m1.toNum }
      .ok (a :: rest)
    else do
      let rest2 ← summaryUpdate c rest
      .ok (a :: rest2)

/-- The `for c in self.creatures` loop of `get_species_summary`
(`simulation.py` lines 304-317): alive creatures only. -/
def summaryLoop : List Creature → List SummaryAcc → Except PyError (List SummaryAcc)
  | [], acc => .ok acc
  | c :: rest, acc =>
    if c.alive then do
      let acc2 ← summaryUpdate c (summaryInit acc c)
      summaryLoop rest acc2
    else summaryLoop rest acc

/-- Finalised record of `get_species_summary` (`simulation.py` lines
319-323): the fitness sum is divided by the count. -/
structure SummaryEntry where
  name : String
  count : ℕ
  avg_fitness : ℚ
  range0 : ℚ
  range1 : ℚ
  deriving DecidableEq, Repr

/-- `Simulation.get_species_summary` (`simulation.py` lines 301-323). -/
def get_species_summary (sim : SimState) : Except PyError (List SummaryEntry) := do
  let acc ← summaryLoop sim.creatures []
  .ok (acc.map fun a => ⟨a.name, a.count, a.fitness_sum / (a.count : ℚ), a.range0, a.range1⟩)

/-- A fixed trait vector for the concrete test creatures: at depth 150 its
compatibility score is exactly 1 (vision bioluminescence −0.5, pressure
match +1.5, no food or synergy bonus). -/
def traits0 : Traits :=
  { vision := .bioluminescence
    food_strategy := .parasite
    move_eff := 1
    repro_rate := 1
    body_type := .flat
    locomotion := .swimming
    size := .small
    pressure_adaptation := .low
    temperature_tolerance := .moderate
    defense_mechanism := .none
    social_behavior := .solitary
    metabolic_rate := 1
    oxygen_efficiency := 1
    light_production := 0
    pressure_tolerance := 1
    salinity_tolerance := 1
    aggression := 0
    camouflage_ability := 0
    migration_tendency := 0 }

/-- The same trait vector with a different food strategy but the same
vision trait. -/
def traits0b : Traits := { traits0 with food_strategy := .filter }

/-- A creature of evaluated fitness exactly 1 at depth 150. -/
def creature0 : Creature := Creature.init 150 traits0

/-- A creature of evaluated fitness 0 at depth 150 (vision scores 0,
pressure adaptation three tiers off scores −1). -/
def creatureDead : Creature :=
  Creature.init 150 { traits0 with vision := .no_eyes, pressure_adaptation := .extreme }

/-- A creature of evaluated fitness 7/2 at depth 150 (vision eyes +2,
pressure match +1.5). -/
def creatureHigh : Creature :=
  Creature.init 150 { traits0 with vision := .eyes }

/-- A population of three creatures that all fall below the survival
threshold. -/
def sim3 : SimState := ⟨[creatureDead, creatureDead, creatureDead], 0, 30, []⟩

/-- A two-creature population in which exactly one creature passes the
survival threshold. -/
def sim5 : SimState := ⟨[creatureHigh, creatureDead], 0, 30, []⟩

/-- A one-creature simulation state with its creature alive, as after
construction. -/
def simC2 : SimState := ⟨[creature0], 0, 30, []⟩

/-- A mutation oracle whose guard draws are all 0 and whose numeric deltas
are all 0. -/
def oracle0 : MutOracle :=
  { gVision := 0, cVision := .eyes
    gFood := 0, cFood := .photosynthesis
    gBody := 0, cBody := .streamlined
    gLoco := 0, cLoco := .swimming
    gSize := 0, cSize := .small
    gPress := 0, cPress := .low
    gTemp := 0, cTemp := .cold
    gDef := 0, cDef := .camouflage
    gSoc := 0, cSoc := .solitary
    gMove := 0, dMove := 0
    gRepro := 0, dRepro := 0
    gMetab := 0, dMetab := 0
    gOxy := 0, dOxy := 0
    gLight := 0, dLight := 0
    gPressT := 0, dPressT := 0
    gSalin := 0, dSalin := 0
    gAggr := 0, dAggr := 0
    gCamo := 0, dCamo := 0
    gMigr := 0, dMigr := 0 }

/-- A generation oracle built from `oracle0` with all depth draws 0. -/
def oracleG : GenOracle :=
  { depthVar := fun _ => 0
    mutAt := fun _ => oracle0
    padChoice := fun _ => 0
    padDepth := fun _ => 0
    padMut := fun _ => oracle0 }

/-- The fields `Creature.__init__` always sets the same way on a freshly
constructed creature. -/
def Creature.fresh (c : Creature) : Prop :=
  c.alive = true ∧ c.fitness = 0 ∧ c.age = 0 ∧ c.energy = 100

instance (c : Creature) : Decidable c.fresh := by
  unfold Creature.fresh; infer_instance

/-! Helper lemmas about the generation loop, shared by several claims. -/

theorem pymax_eq_max (a b : ℚ) : pymax a b = max a b := by
  unfold pymax
  split
  · exact (max_eq_right (le_of_lt (by assumption))).symm
  · exact (max_eq_left (not_lt.mp (by assumption))).symm

theorem pymin_eq_min (a b : ℚ) : pymin a b = min a b := by
  unfold pymin
  split
  · exact (min_eq_right (le_of_lt (by assumption))).symm
  · exact (min_eq_left (not_lt.mp (by assumption))).symm

theorem reproInner_length_le (c : Creature) (o : GenOracle) (target : ℕ) :
    ∀ (n : ℕ) (acc : List Creature), acc.length ≤ target →
      (reproInner c o target n acc).length ≤ target := by
  intro n
  induction n with
  | zero => intro acc h; simpa [reproInner] using h
  | succ k ih =>
    intro acc h
    simp only [reproInner]
    by_cases hle : target ≤ acc.length
    · simpa [if_pos hle] using h
    · rw [if_neg hle]
      exact ih _ (by simp; omega)

theorem reproLoop_length_le (o : GenOracle) (target : ℕ) :
    ∀ (survivors acc : List Creature), acc.length ≤ target →
      (reproLoop o target survivors acc).length ≤ target := by
  intro survivors
  induction survivors with
  | nil => intro acc h; simpa [reproLoop] using h
  | cons c rest ih =>
    intro acc h
    simp only [reproLoop]
    exact ih _ (reproInner_length_le c o target _ acc h)

theorem padLoop_length (best : List Creature) (o : GenOracle) (target : ℕ) :
    ∀ (fuel : ℕ) (acc : List Creature), acc.length ≤ target →
      target ≤ acc.length + fuel →
      (padLoop best o target fuel acc).length = target := by
  intro fuel
  induction fuel with
  | zero =>
    intro acc h1 h2
    simp only [padLoop]
    omega
  | succ k ih =>
    intro acc h1 h2
    simp only [padLoop]
    by_cases hlt : acc.length < target
    · rw [if_pos hlt]
      exact ih _ (by simp; omega) (by simp; omega)
    · rw [if_neg hlt]
      omega

/-- The creature list `run_generation` installs, written out explicitly
(definitional unfolding of the let chain). -/
theorem run_generation_creatures_eq (sim : SimState) (o : GenOracle) :
    (run_generation sim o).creatures =
      (padLoop ((sortDesc (select_survivors (sim.creatures.map mark_alive))).take 5) o
        (sim.creatures.map mark_alive).length (sim.creatures.map mark_alive).length
        (reproLoop o (sim.creatures.map mark_alive).length
          (select_survivors (sim.creatures.map mark_alive)) [])).take
        (sim.creatures.map mark_alive).length := rfl

theorem run_generation_creatures_length (sim : SimState) (o : GenOracle) :
    ((run_generation sim o).creatures).length = sim.creatures.length := by
  rw [run_generation_creatures_eq, List.length_take]
  have h1 : (reproLoop o (sim.creatures.map mark_alive).length
      (select_survivors (sim.creatures.map mark_alive)) []).length ≤
      (sim.creatures.map mark_alive).length :=
    reproLoop_length_le o _ _ [] (by simp)
  have h2 := padLoop_length ((sortDesc (select_survivors (sim.creatures.map mark_alive))).take 5)
    o (sim.creatures.map mark_alive).length (sim.creatures.map mark_alive).length _ h1
    (by omega)
  rw [h2]
  simp

theorem reproOffspring_fresh (c : Creature) (o : GenOracle) (idx : ℕ) :
    (reproOffspring c o idx).fresh := ⟨rfl, rfl, rfl, rfl⟩

theorem padOffspring_fresh (best : List Creature) (o : GenOracle) (idx : ℕ) :
    (padOffspring best o idx).fresh := ⟨rfl, rfl, rfl, rfl⟩

theorem reproInner_mem (c : Creature) (o : GenOracle) (target : ℕ) :
    ∀ (n : ℕ) (acc : List Creature) (x : Creature),
      x ∈ reproInner c o target n acc → x ∈ acc ∨ x.fresh := by
  intro n
  induction n with
  | zero => intro acc x hx; exact Or.inl (by simpa [reproInner] using hx)
  | succ k ih =>
    intro acc x hx
    simp only [reproInner] at hx
    by_cases hle : target ≤ acc.length
    · rw [if_pos hle] at hx; exact Or.inl hx
    · rw [if_neg hle] at hx
      rcases ih _ x hx with h | h
      · rcases List.mem_append.mp h with h | h
        · exact Or.inl h
        · refine Or.inr ?_
          have hx2 : x = reproOffspring c o acc.length := by simpa using h
          rw [hx2]; exact reproOffspring_fresh c o acc.length
      · exact Or.inr h

theorem reproLoop_mem (o : GenOracle) (target : ℕ) :
    ∀ (survivors acc : List Creature) (x : Creature),
      x ∈ reproLoop o target survivors acc → x ∈ acc ∨ x.fresh := by
  intro survivors
  induction survivors with
  | nil => intro acc x hx; exact Or.inl (by simpa [reproLoop] using hx)
  | cons c rest ih =>
    intro acc x hx
    simp only [reproLoop] at hx
    rcases ih _ x hx with h | h
    · exact reproInner_mem c o target _ acc x h
    · exact Or.inr h

theorem padLoop_mem (best : List Creature) (o : GenOracle) (target : ℕ) :
    ∀ (fuel : ℕ) (acc : List Creature) (x : Creature),
      x ∈ padLoop best o target fuel acc → x ∈ acc ∨ x.fresh := by
  intro fuel
  induction fuel with
  | zero => intro acc x hx; exact Or.inl (by simpa [padLoop] using hx)
  | succ k ih =>
    intro acc x hx
    simp only [padLoop] at hx
    by_cases hlt : acc.length < target
    · rw [if_pos hlt] at hx
      rcases ih _ x hx with h | h
      · rcases List.mem_append.mp h with h | h
        · exact Or.inl h
        · refine Or.inr ?_
          have hx2 : x = padOffspring best o acc.length := by simpa using h
          rw [hx2]; exact padOffspring_fresh best o acc.length
      · exact Or.inr h
    · rw [if_neg hlt] at hx; exact Or.inl hx

theorem run_generation_fresh (sim : SimState) (o : GenOracle) :
    ∀ c ∈ (run_generation sim o).creatures, c.fresh := by
  intro c hc
  rw [run_generation_creatures_eq] at hc
  have hc2 := List.take_subset _ _ hc
  rcases padLoop_mem _ o _ _ _ c hc2 with h | h
  · rcases reproLoop_mem o _ _ _ c h with h2 | h2
    · cases h2
    · exact h2
  · exact h

theorem run_generation_alive_count (sim : SimState) (o : GenOracle) :
    (((run_generation sim o).creatures).filter (·.alive)).length =
      sim.creatures.length := by
  have hall : ∀ c ∈ (run_generation sim o).creatures, c.alive = true :=
    fun c hc => (run_generation_fresh sim o c hc).1
  rw [List.filter_eq_self.mpr hall, run_generation_creatures_length]

theorem select_survivors_length (creatures : List Creature) (h : creatures ≠ []) :
    (select_survivors creatures).length =
      max 1 (creatures.filter (·.alive)).length := by
  unfold select_survivors
  cases hf : creatures.filter (·.alive) with
  | cons a l =>
    simp only [hf, List.length_cons]
    exact (Nat.max_eq_right (Nat.succ_le_succ (Nat.zero_le _))).symm
  | nil =>
    cases creatures with
    | nil => exact absurd rfl h
    | cons c cs => simp [hf]

theorem run_generation_gen_count (sim : SimState) (o : GenOracle) :
    (run_generation sim o).generation_count = sim.generation_count + 1 := rfl

theorem runLoop_gen_count (o : ℕ → GenOracle) :
    ∀ (n : ℕ) (sim : SimState),
      (runLoop o n sim).generation_count = sim.generation_count + n := by
  intro n
  induction n with
  | zero => intro sim; rfl
  | succ k ih =>
    intro sim
    simp only [runLoop]
    rw [ih, run_generation_gen_count]
    omega

/-! Helper lemmas for the `get_species_summary` error path. -/

theorem summaryUpdate_error (c : Creature) :
    ∀ acc : List SummaryAcc, (∃ a ∈ acc, a.name = c.species_name) →
      summaryUpdate c acc = .error .typeError := by
  intro acc
  induction acc with
  | nil => rintro ⟨a, ha, _⟩; cases ha
  | cons a rest ih =>
    rintro ⟨b, hb, hname⟩
    by_cases h : a.name = c.species_name
    · simp only [summaryUpdate, if_pos h]
      rfl
    · rcases List.mem_cons.mp hb with hb | hb
      · exact absurd (hb ▸ hname) h
      · simp only [summaryUpdate, if_neg h]
        rw [ih ⟨b, hb, hname⟩]
        rfl

theorem summaryInit_mem (acc : List SummaryAcc) (c : Creature) :
    ∃ a ∈ summaryInit acc c, a.name = c.species_name := by
  unfold summaryInit
  by_cases h : acc.any (·.name = c.species_name)
  · rw [if_pos h]
    obtain ⟨a, ha, he⟩ := List.any_eq_true.mp h
    exact ⟨a, ha, by simpa using he⟩
  · rw [if_neg h]
    exact ⟨⟨c.species_name, 0, c, c.depth, c.depth, 0⟩,
      List.mem_append_right _ (List.mem_singleton.mpr rfl), rfl⟩

theorem summaryLoop_error :
    ∀ (cs : List Creature) (acc : List SummaryAcc),
      (∃ c ∈ cs, c.alive = true) → summaryLoop cs acc = .error .typeError := by
  intro cs
  induction cs with
  | nil => rintro acc ⟨c, hc, _⟩; cases hc
  | cons c rest ih =>
    rintro acc ⟨d, hd, halive⟩
    by_cases h : c.alive
    · have herr := summaryUpdate_error c _ (summaryInit_mem acc c)
      simp only [summaryLoop, if_pos h]
      rw [herr]
      rfl
    · rcases List.mem_cons.mp hd with hd | hd
      · exact absurd (hd ▸ halive) h
      · simp only [summaryLoop, if_neg h]
        exact ih acc ⟨d, hd, halive⟩

/-! Claim theorems. -/

/-- C1: the claim says every adjustment term (vision, pressure, locomotion,
size, defense, social, metabolic, tolerance) contributes additively to the
stored fitness.  In the source each `_evaluate_*_fitness` helper receives
the float `fit` by value, rebinds only its local parameter and returns
`None`, so none of the eight adjustment terms ever reaches
`creature.fitness`: the stored value is exactly
`max(0, compatibility + food_bonus)`, and at the concrete `creature0` the
adjustment sum is 17/8 ≠ 0 yet the stored fitness (1) differs from the
claimed sum (25/8). -/
theorem evaluate_fitness_drops_adjustment_terms :
    (∀ c : Creature, (evaluate_fitness c).fitness = pymax 0 (fitness_base c))
    ∧ fitness_adjustments creature0 ≠ 0
    ∧ (evaluate_fitness creature0).fitness ≠
        pymax 0 (fitness_base creature0 + fitness_adjustments creature0) := by
  refine ⟨fun c => ?_, by with_unfolding_all decide, by with_unfolding_all decide⟩
  simp only [evaluate_fitness, fitness_base]
  cases food_bonuses (get_layer c.depth).food_type c.traits.food_strategy <;>
    simp [zero_add]

/-- C2: the claim says `get_species_summary` returns the per-species
aggregation without raising whenever at least one creature is alive.  Line
316 of `simulation.py` computes
`min(species_summary[name]['depth_range'], c.depth)`, comparing the whole
`depth_range` list with a number, which raises `TypeError` on the first
alive creature processed, so the method raises whenever any creature is
alive. -/
theorem get_species_summary_raises (sim : SimState)
    (h : ∃ c ∈ sim.creatures, c.alive = true) :
    get_species_summary sim = .error .typeError := by
  unfold get_species_summary
  rw [summaryLoop_error sim.creatures [] h]
  rfl

/-- Witness: a one-creature state with its creature alive makes
`get_species_summary` raise. -/
theorem get_species_summary_raises_witness :
    (∃ c ∈ simC2.creatures, c.alive = true)
    ∧ get_species_summary simC2 = .error .typeError :=
  ⟨⟨creature0, by with_unfolding_all decide, by with_unfolding_all decide⟩,
    get_species_summary_raises simC2 ⟨creature0, by with_unfolding_all decide, by with_unfolding_all decide⟩⟩

/-- C3: for every population of size at least 1 and every outcome of the
random draws, `run_generation` preserves the population size: the
reproduction loop never exceeds the target, the padding loop fills up to
it, and the final `next_gen[:population_target]` slice installs exactly
the original number of creatures. -/
theorem run_generation_preserves_population_size (sim : SimState) (o : GenOracle)
    (h : 1 ≤ sim.creatures.length) :
    ((run_generation sim o).creatures).length = sim.creatures.length :=
  run_generation_creatures_length sim o

/-- Witness: a concrete two-creature simulation keeps size 2. -/
theorem run_generation_preserves_population_size_witness :
    1 ≤ sim5.creatures.length
    ∧ ((run_generation sim5 oracleG).creatures).length = sim5.creatures.length :=
  ⟨by with_unfolding_all decide, run_generation_preserves_population_size sim5 oracleG (by with_unfolding_all decide)⟩

/-- C4 counterexample: on a population of three creatures that all fall
below the survival threshold, the claim predicts the top `min 5 3 = 3`
creatures are force-selected as survivors and marked alive; the code
selects exactly one creature (the single fittest) and leaves its alive
flag false. -/
theorem extinction_guard_counterexample :
    ((sim3.creatures.map mark_alive).filter (·.alive)).length = 0
    ∧ (select_survivors (sim3.creatures.map mark_alive)).length = 1
    ∧ min 5 sim3.creatures.length = 3
    ∧ ∀ c ∈ select_survivors (sim3.creatures.map mark_alive), c.alive = false := by
  with_unfolding_all decide

/-- C4 amended: the guard fires only when zero creatures meet the
threshold, and then force-selects the single first-fittest creature as
survivor without touching its alive flag (survivor count is
`max 1 (number above threshold)`); nevertheless one generation on a
population of size N ≥ 1 leaves at least `min 5 N` alive creatures —
indeed all N — because the replacement population consists of freshly
constructed offspring whose alive flag is `True`. -/
theorem extinction_guard_amended (sim : SimState) (o : GenOracle)
    (h : sim.creatures ≠ []) :
    (select_survivors (sim.creatures.map mark_alive)).length =
      max 1 ((sim.creatures.map mark_alive).filter (·.alive)).length
    ∧ min 5 sim.creatures.length ≤
        (((run_generation sim o).creatures).filter (·.alive)).length := by
  refine ⟨select_survivors_length _ (fun hm => h (List.map_eq_nil_iff.mp hm)), ?_⟩
  rw [run_generation_alive_count]
  exact Nat.min_le_right 5 _

/-- Witness: the all-below-threshold three-creature population still ends
the generation with at least `min 5 3` alive creatures. -/
theorem extinction_guard_amended_witness :
    sim3.creatures ≠ []
    ∧ min 5 sim3.creatures.length ≤
        (((run_generation sim3 oracleG).creatures).filter (·.alive)).length :=
  ⟨by with_unfolding_all decide, (extinction_guard_amended sim3 oracleG (by with_unfolding_all decide)).2⟩

/-- C5 counterexample: on a two-creature population with exactly one
creature above threshold, the single log entry `run_generation` appends
totals one creature, while the post-replacement population has two alive
creatures, so the entry is not the aggregation of the post-replacement
population the claim describes. -/
theorem species_log_counterexample :
    (run_generation sim5 oracleG).species_log ≠
      [⟨sim5.generation_count,
        species_snapshot (run_generation sim5 oracleG).creatures,
        (species_snapshot (run_generation sim5 oracleG).creatures).length⟩]
    ∧ ((run_generation sim5 oracleG).species_log.map
        fun e => (e.species.map (·.count)).sum) = [1]
    ∧ (((run_generation sim5 oracleG).creatures).filter (·.alive)).length = 2 := by
  with_unfolding_all decide

/-- C5 amended: each `run_generation` call appends exactly one entry to
`species_log`, and that entry aggregates the *pre-replacement* population
(the old generation, after fitness evaluation and threshold marking, before
reproduction) among alive creatures only, recording per species the count,
mean fitness and `[min, max]` depth range, under the pre-increment
generation index and with the distinct species count. -/
theorem species_log_appends_pre_replacement (sim : SimState) (o : GenOracle) :
    (run_generation sim o).species_log =
      sim.species_log ++
        [⟨sim.generation_count,
          species_snapshot (sim.creatures.map mark_alive),
          (species_snapshot (sim.creatures.map mark_alive)).length⟩] := rfl

/-- C6 counterexample: `creature0` evaluates to fitness exactly 1 and is
marked dead, contradicting the claim that fitness equal to the threshold
1.0 yields an alive creature. -/
theorem survival_threshold_counterexample :
    (mark_alive creature0).fitness = 1 ∧ (mark_alive creature0).alive = false := by
  with_unfolding_all decide

/-- C6 amended: after fitness evaluation the alive flag is set to
`fitness > 1.0`, a strict comparison (`simulation.py` line 217), so a
creature whose evaluated fitness equals exactly 1.0 is marked dead; the
fitness value itself is the evaluated one. -/
theorem survival_marking_strict (c : Creature) :
    ((mark_alive c).alive = true ↔ (evaluate_fitness c).fitness > 1)
    ∧ (mark_alive c).fitness = (evaluate_fitness c).fitness := by
  refine ⟨?_, rfl⟩
  simp [mark_alive]

/-- C7: the claim says `run` accepts a generations count and an optional
progress callback invoked once per generation.  `Simulation.run` takes no
parameter at all (`def run(self):`), so the call
`sim.run(progress_callback=progress_callback)` in `main.py` line 19 fails
Python keyword binding (raising `TypeError`), and no callback is ever
invoked; `run` does call `run_generation` exactly `self.generations`
times, incrementing `generation_count` once per call. -/
theorem run_rejects_progress_callback :
    accepts_kwargs run_params main_run_call_kwargs = false
    ∧ ∀ (sim : SimState) (o : ℕ → GenOracle),
        (run sim o).generation_count = sim.generation_count + sim.generations :=
  ⟨by with_unfolding_all decide, fun sim o => runLoop_gen_count o sim.generations sim⟩

/-- C8: the species name is a pure function of depth and the vision trait
(two trait vectors with equal vision yield the same name at every depth),
and crossing the 200 m band boundary changes the band part: depth 150
gives a name beginning "Superficie ", depth 250 a name beginning "Meso ". -/
theorem species_naming_pure :
    (∀ (d : ℚ) (t₁ t₂ : Traits), t₁.vision = t₂.vision →
        generate_species_name d t₁ = generate_species_name d t₂)
    ∧ (∀ t : Traits, generate_species_name 150 t = "Superficie " ++ visionPart t.vision)
    ∧ (∀ t : Traits, generate_species_name 250 t = "Meso " ++ visionPart t.vision) := by
  refine ⟨fun d t₁ t₂ h => by simp [generate_species_name, h], fun t => ?_, fun t => ?_⟩
  · show depthPart 150 ++ " " ++ visionPart t.vision = "Superficie " ++ visionPart t.vision
    cases t.vision <;> with_unfolding_all decide
  · show depthPart 250 ++ " " ++ visionPart t.vision = "Meso " ++ visionPart t.vision
    cases t.vision <;> with_unfolding_all decide

/-- Witness: two trait vectors equal in vision but differing in food
strategy receive the same species name at depth 150. -/
theorem species_naming_pure_witness :
    generate_species_name 150 traits0 = generate_species_name 150 traits0b :=
  species_naming_pure.1 150 traits0 traits0b rfl

/-- C9: mutation at rate 0 is a no-op on the trait mapping and depth —
every `random.random() < 0.0` guard is false since the draws are
non-negative — while the result is a freshly constructed creature
(alive, zero fitness, zero age, full energy), i.e. a new object rather
than the parent. -/
theorem mutate_rate_zero_identity (c : Creature) (o : MutOracle) (h : o.valid) :
    (c.mutate 0 o).traits = c.traits ∧ (c.mutate 0 o).depth = c.depth
    ∧ (c.mutate 0 o).alive = true ∧ (c.mutate 0 o).fitness = 0
    ∧ (c.mutate 0 o).age = 0 ∧ (c.mutate 0 o).energy = 100 := by
  obtain ⟨⟨h1, _⟩, ⟨h2, _⟩, ⟨h3, _⟩, ⟨h4, _⟩, ⟨h5, _⟩, ⟨h6, _⟩, ⟨h7, _⟩, ⟨h8, _⟩,
    ⟨h9, _⟩, ⟨h10, _⟩, ⟨h11, _⟩, ⟨h12, _⟩, ⟨h13, _⟩, ⟨h14, _⟩, ⟨h15, _⟩, ⟨h16, _⟩,
    ⟨h17, _⟩, ⟨h18, _⟩, ⟨h19, _⟩⟩ := h
  refine ⟨?_, rfl, rfl, rfl, rfl, rfl⟩
  simp only [Creature.mutate, Creature.init,
    if_neg (not_lt.mpr h1), if_neg (not_lt.mpr h2), if_neg (not_lt.mpr h3),
    if_neg (not_lt.mpr h4), if_neg (not_lt.mpr h5), if_neg (not_lt.mpr h6),
    if_neg (not_lt.mpr h7), if_neg (not_lt.mpr h8), if_neg (not_lt.mpr h9),
    if_neg (not_lt.mpr h10), if_neg (not_lt.mpr h11), if_neg (not_lt.mpr h12),
    if_neg (not_lt.mpr h13), if_neg (not_lt.mpr h14), if_neg (not_lt.mpr h15),
    if_neg (not_lt.mpr h16), if_neg (not_lt.mpr h17), if_neg (not_lt.mpr h18),
    if_neg (not_lt.mpr h19)]

/-- Witness: mutating `creature0` with rate 0 under the all-zero oracle
preserves its trait mapping. -/
theorem mutate_rate_zero_identity_witness :
    oracle0.valid ∧ (creature0.mutate 0 oracle0).traits = creature0.traits :=
  ⟨by with_unfolding_all decide, (mutate_rate_zero_identity creature0 oracle0 (by with_unfolding_all decide)).1⟩

/-- C10: after `run_generation` on a nonempty population, every stored
creature is a freshly constructed offspring (alive, fitness 0, age 0,
energy 100) — the alive flags computed during selection never persist —
so the number of alive creatures equals the population size. -/
theorem post_generation_population_fresh (sim : SimState) (o : GenOracle)
    (h : sim.creatures ≠ []) :
    (∀ c ∈ (run_generation sim o).creatures,
        c.alive = true ∧ c.fitness = 0 ∧ c.age = 0 ∧ c.energy = 100)
    ∧ (((run_generation sim o).creatures).filter (·.alive)).length =
        sim.creatures.length :=
  ⟨fun c hc => run_generation_fresh sim o c hc, run_generation_alive_count sim o⟩

/-- Witness: the two-creature simulation ends its generation with two
alive creatures. -/
theorem post_generation_population_fresh_witness :
    sim5.creatures ≠ []
    ∧ (((run_generation sim5 oracleG).creatures).filter (·.alive)).length =
        sim5.creatures.length :=
  ⟨by with_unfolding_all decide, (post_generation_population_fresh sim5 oracleG (by with_unfolding_all decide)).2⟩

end Ocean
